import Mathlib

/-!
Verification of the Decision & Risk Engine of the autonomous trading bot.

This file is a shallow embedding, in Lean 4, of the Python services under
`backend/services/`.  Python floats are idealised as exact rationals (`ℚ`);
`round(x, n)` is modelled by round-half-to-even at `n` decimal places, which
is Python's rounding mode.  Database reads that feed a function are passed as
explicit parameters; database writes become returned values.  Collection
dictionaries become Lean structures, with one structure field per dictionary
key that the modelled control flow reads or writes.
-/

namespace Bot

/-! ## Rounding (Python `round`, half-to-even) -/

/-- Round-half-to-even of a rational to an integer, the semantics of
Python's builtin `round` on floats (idealised to exact arithmetic). -/
def rhe (q : ℚ) : ℤ :=
  let f := ⌊q⌋
  if q - f < 1/2 then f
  else if 1/2 < q - f then f + 1
  else if f % 2 = 0 then f else f + 1

/-- Python `round(x, 2)`. -/
def round2 (q : ℚ) : ℚ := (rhe (q * 100) : ℚ) / 100

theorem rhe_le (q : ℚ) : (rhe q : ℚ) ≤ q + 1/2 := by
  simp only [rhe]
  have hf : (⌊q⌋ : ℚ) ≤ q := Int.floor_le q
  split_ifs with h1 h2 h3
  · linarith
  · push_cast; linarith
  · linarith
  · push_cast
    have : ¬(1/2 : ℚ) < q - ⌊q⌋ := h2
    linarith [not_lt.mp this]

theorem rhe_ge (q : ℚ) : q - 1/2 ≤ (rhe q : ℚ) := by
  simp only [rhe]
  have hf : q - 1 < (⌊q⌋ : ℚ) := Int.sub_one_lt_floor q
  split_ifs with h1 h2 h3
  · linarith
  · push_cast; linarith
  · have : ¬(q - ⌊q⌋ < 1/2) := h1
    linarith [not_lt.mp this]
  · push_cast; linarith

theorem floor_le_rhe (q : ℚ) : ⌊q⌋ ≤ rhe q := by
  simp only [rhe]
  split_ifs <;> omega

/-- If an integer bound `n` is below `x` then it is below `round2 x`:
rounding to two decimals never crosses an integer from above. -/
theorem int_le_round2 (n : ℤ) (x : ℚ) (h : (n : ℚ) ≤ x) : (n : ℚ) ≤ round2 x := by
  unfold round2
  have h1 : (n * 100 : ℤ) ≤ ⌊x * 100⌋ := by
    rw [Int.le_floor]
    push_cast
    nlinarith
  have h2 : (n * 100 : ℤ) ≤ rhe (x * 100) := le_trans h1 (floor_le_rhe _)
  have h3 : ((n * 100 : ℤ) : ℚ) ≤ (rhe (x * 100) : ℚ) := by exact_mod_cast h2
  push_cast at h3
  linarith

theorem round2_le (x : ℚ) : round2 x ≤ x + 1/200 := by
  unfold round2
  have := rhe_le (x * 100)
  linarith

/-! ## Risk Gate (`risk_manager.py`, class `RiskManager`)

The class attributes `capital_floor_pct = 0.97` and
`max_daily_loss_pct = 0.015` are the constructor defaults, which is how
`BotEngine` instantiates the class. -/

/-- The fields of the latest `risk_metrics` document that the risk gate reads
(`.get` defaults in the source are the callers' responsibility; `validate_trade`
reads with default `0`, modelled by the caller passing the stored values). -/
structure RiskMetrics where
  total_equity : ℚ
  max_equity : ℚ
  daily_pnl : ℚ
  cash_balance : ℚ
deriving DecidableEq

/-- The fields of the signal dictionary read by `RiskManager.validate_trade`. -/
structure TradeSignal where
  confidence : ℚ
  buy_recommendation : Bool
deriving DecidableEq

/-- Result of `RiskManager.check_capital_floor`.  The source also returns
`current_equity` (an echo of the input) and `current_ratio`
(`current_equity / max_equity`), neither of which is read anywhere; they are
omitted from the embedding. -/
structure FloorCheckResult where
  equity_floor : ℚ
  floor_breach : Bool
  buffer_percent : ℚ
  allow_trading : Bool
deriving DecidableEq

/-- `RiskManager.check_capital_floor` (risk_manager.py lines 12-27). -/
def check_capital_floor (capital_floor_pct current_equity max_equity : ℚ) :
    FloorCheckResult :=
  let equity_floor := max_equity * capital_floor_pct
  let breach := decide (current_equity < equity_floor)
  let buffer := if 0 < equity_floor then (current_equity - equity_floor) / equity_floor * 100 else 0
  ⟨equity_floor, breach, round2 buffer, !breach⟩

/-- Result of `RiskManager.check_daily_loss` (the `daily_pnl` echo field is
omitted). -/
structure LossCheckResult where
  loss_percent : ℚ
  max_allowed_loss : ℚ
  loss_breach : Bool
  allow_trading : Bool
deriving DecidableEq

/-- `RiskManager.check_daily_loss` (risk_manager.py lines 29-42). -/
def check_daily_loss (max_daily_loss_pct daily_pnl starting_equity : ℚ) :
    LossCheckResult :=
  let max_loss := starting_equity * max_daily_loss_pct
  let loss_pct := if 0 < starting_equity then daily_pnl / starting_equity * 100 else 0
  let breach := decide (daily_pnl < -max_loss)
  ⟨round2 loss_pct, max_loss, breach, !breach⟩

/-- `RiskManager.calculate_position_size` (risk_manager.py lines 44-65). -/
def calculate_position_size (signal_strength confidence available_capital volatility : ℚ) : ℚ :=
  let edge := signal_strength * (confidence / 100)
  let kelly0 := if 0 < volatility then edge / volatility ^ 2 else 0
  let kelly_fraction := min (kelly0 * (1/4)) (2/100)
  let position_size := available_capital * kelly_fraction
  round2 (max 10 (min position_size (available_capital * (5/100))))

/-- `RiskManager._get_rejection_reason` (risk_manager.py lines 106-115). -/
def get_rejection_reason (floor_ok loss_ok confidence_ok strong_signal : Bool) : String :=
  if !floor_ok then "Capital floor breach - trading halted"
  else if !loss_ok then "Daily loss limit reached"
  else if !confidence_ok then "Signal confidence too low"
  else if !strong_signal then "No strong buy signal"
  else "All checks passed"

/-- Result of `RiskManager.validate_trade`. -/
structure ValidationResult where
  approved : Bool
  floor_ok : Bool
  loss_ok : Bool
  confidence_ok : Bool
  signal_ok : Bool
  reason : String
deriving DecidableEq

/-- `RiskManager.validate_trade` (risk_manager.py lines 67-104).  The daily
loss check is fed `max_equity` as its reference equity, exactly as in the
source. -/
def validate_trade (sig : TradeSignal) (rm : RiskMetrics) : ValidationResult :=
  let floor_check := check_capital_floor (97/100) rm.total_equity rm.max_equity
  let loss_check := check_daily_loss (15/1000) rm.daily_pnl rm.max_equity
  let confidence_ok := decide (60 ≤ sig.confidence)
  let strong_signal := sig.buy_recommendation
  ⟨floor_check.allow_trading && loss_check.allow_trading && confidence_ok && strong_signal,
   floor_check.allow_trading, loss_check.allow_trading, confidence_ok, strong_signal,
   get_rejection_reason floor_check.allow_trading loss_check.allow_trading confidence_ok
     strong_signal⟩

/-- `AdvancedRiskManager.calculate_optimal_position_size`
(advanced_risk_manager.py lines 151-173). -/
def calculate_optimal_position_size (signal_strength volatility total_equity current_heat
    max_heat : ℚ) : ℚ :=
  let edge := signal_strength
  let kelly0 := if 0 < volatility then edge / volatility ^ 2 else 0
  let kelly_fraction := min (kelly0 * (1/4)) (2/100)
  let heat_available := max_heat - current_heat
  if heat_available ≤ 0 then 0
  else
    let heat_adjustment := min (heat_available / max_heat) 1
    let position_size := total_equity * kelly_fraction * heat_adjustment
    round2 (max 10 (min position_size (total_equity * (5/100))))

/-- Claim C7: `validate_trade` approves exactly when the capital-floor check
passes, the daily-loss check passes, confidence is at least 60 and the buy
recommendation flag is set; on rejection the reason is the first failing
check in the fixed order floor, loss, confidence, signal. -/
theorem c7_validate_trade_order (sig : TradeSignal) (rm : RiskMetrics) :
    ((validate_trade sig rm).approved = true ↔
      ((validate_trade sig rm).floor_ok = true ∧ (validate_trade sig rm).loss_ok = true ∧
       60 ≤ sig.confidence ∧ sig.buy_recommendation = true)) ∧
    ((validate_trade sig rm).floor_ok = true ↔ ¬(rm.total_equity < rm.max_equity * (97/100))) ∧
    ((validate_trade sig rm).loss_ok = true ↔ ¬(rm.daily_pnl < -(rm.max_equity * (15/1000)))) ∧
    ((validate_trade sig rm).floor_ok = false →
      (validate_trade sig rm).reason = "Capital floor breach - trading halted") ∧
    ((validate_trade sig rm).floor_ok = true → (validate_trade sig rm).loss_ok = false →
      (validate_trade sig rm).reason = "Daily loss limit reached") ∧
    ((validate_trade sig rm).floor_ok = true → (validate_trade sig rm).loss_ok = true →
      sig.confidence < 60 → (validate_trade sig rm).reason = "Signal confidence too low") ∧
    ((validate_trade sig rm).floor_ok = true → (validate_trade sig rm).loss_ok = true →
      60 ≤ sig.confidence → sig.buy_recommendation = false →
      (validate_trade sig rm).reason = "No strong buy signal") ∧
    ((validate_trade sig rm).approved = true → (validate_trade sig rm).reason = "All checks passed") := by
  by_cases h1 : rm.total_equity < rm.max_equity * (97/100) <;>
    by_cases h2 : rm.daily_pnl < -(rm.max_equity * (15/1000)) <;>
    by_cases h3 : 60 ≤ sig.confidence <;>
    by_cases h4 : sig.buy_recommendation = true <;>
    simp [validate_trade, check_capital_floor, check_daily_loss, get_rejection_reason,
      h1, h2, h3, h4, not_le, not_lt, le_of_not_lt, lt_of_not_le]

/-- Witness for C7: a concrete signal whose confidence check is the first
failing check, yielding the confidence rejection reason. -/
theorem c7_witness :
    (validate_trade ⟨50, true⟩ ⟨10000, 10000, 0, 10000⟩).reason = "Signal confidence too low" :=
  (c7_validate_trade_order ⟨50, true⟩ ⟨10000, 10000, 0, 10000⟩).2.2.2.2.2.1
    (by norm_num [validate_trade, check_capital_floor])
    (by norm_num [validate_trade, check_daily_loss]) (by norm_num)

/-- Counterexample for C3: with `available_capital = 100` (a positive
capital), `calculate_position_size` returns `10`, which is neither `0` nor
inside `[10, 0.05 × capital] = [10, 5]` (that interval is empty). -/
theorem c3_counterexample :
    calculate_position_size 1 100 100 (1/10) = 10 ∧
    decide ((10 : ℚ) = 0) = false ∧
    decide ((10 : ℚ) ≤ 100 * (5/100)) = false := by
  refine ⟨?_, by norm_num, by norm_num⟩
  norm_num [calculate_position_size, round2, rhe, min_def, max_def]

/-- Claim C3 (amended): for every input and positive capital, the two sizing
functions return either exactly `0` (possible only for
`calculate_optimal_position_size`, when the heat budget `max_heat -
current_heat` is exhausted) or a value in
`[10, max 10 (0.05 × capital) + 1/200]`; the `1/200` slack is the cent
rounding, and when `0.05 × capital < 10` the lower clamp `$10` exceeds
`0.05 × capital`. -/
theorem c3_position_size_bounds (s c cap v ss vol eq ch mh : ℚ)
    (_hcap : 0 < cap) (_heq : 0 < eq) (_hmh : 0 < mh) :
    (10 ≤ calculate_position_size s c cap v ∧
     calculate_position_size s c cap v ≤ max 10 (cap * (5/100)) + 1/200) ∧
    (calculate_optimal_position_size ss vol eq ch mh = 0 ∨
     (10 ≤ calculate_optimal_position_size ss vol eq ch mh ∧
      calculate_optimal_position_size ss vol eq ch mh ≤ max 10 (eq * (5/100)) + 1/200)) := by
  have key : ∀ (size m : ℚ), 10 ≤ round2 (max 10 (min size m)) ∧
      round2 (max 10 (min size m)) ≤ max 10 m + 1/200 := by
    intro size m
    constructor
    · have h10 : (10 : ℚ) ≤ max 10 (min size m) := le_max_left _ _
      have := int_le_round2 10 (max 10 (min size m)) (by exact_mod_cast h10)
      exact_mod_cast this
    · have hle : max 10 (min size m) ≤ max 10 m :=
        max_le_max le_rfl (min_le_right _ _)
      have := round2_le (max 10 (min size m))
      linarith
  constructor
  · simpa [calculate_position_size] using key _ _
  · by_cases hheat : mh - ch ≤ 0
    · left
      simp [calculate_optimal_position_size, hheat]
    · right
      simpa [calculate_optimal_position_size, hheat] using key _ _

/-- Witness for C3: the amended bounds evaluated at a concrete input. -/
theorem c3_witness :
    (10 ≤ calculate_position_size 1 100 10000 (1/10) ∧
     calculate_position_size 1 100 10000 (1/10) ≤ max 10 ((10000 : ℚ) * (5/100)) + 1/200) ∧
    (calculate_optimal_position_size (95/100) (1/10) 10000 0 (15/100) = 0 ∨
     (10 ≤ calculate_optimal_position_size (95/100) (1/10) 10000 0 (15/100) ∧
      calculate_optimal_position_size (95/100) (1/10) 10000 0 (15/100) ≤
        max 10 ((10000 : ℚ) * (5/100)) + 1/200)) :=
  c3_position_size_bounds 1 100 10000 (1/10) (95/100) (1/10) 10000 0 (15/100)
    (by norm_num) (by norm_num) (by norm_num)

/-! ## Risk snapshots (`bot_engine.py`, `BotEngine.update_risk_metrics`) -/

/-- The per-position fields read by `update_risk_metrics`: `quantity` (the
capital committed) and `pnl` (read with `.get('pnl', 0)`, here the stored
value). -/
structure PositionState where
  quantity : ℚ
  pnl : ℚ
deriving DecidableEq

/-- A `risk_metrics` document as inserted by `update_risk_metrics`
(`user_id` and `timestamp` are dropped: the embedding is per tenant and
snapshots are kept in insertion order). -/
structure RiskSnapshot where
  total_equity : ℚ
  max_equity : ℚ
  equity_floor : ℚ
  current_drawdown : ℚ
  daily_pnl : ℚ
  positions_value : ℚ
  cash_balance : ℚ
deriving DecidableEq

/-- The database reads of one `update_risk_metrics` tick other than the
previous snapshot: the open positions, the first snapshot of the current
day if any (`daily_start_metrics`), and an optional external in-place
mutation of the latest snapshot's `cash_balance` (performed by the buy/sell
paths between ticks). -/
structure MetricsInput where
  positions : List PositionState
  daily_start_equity : Option ℚ
  cash_override : Option ℚ
deriving DecidableEq

/-- `BotEngine.update_risk_metrics` (bot_engine.py lines 102-169) as a pure
state transition: given the latest snapshot (if any) and the tick's database
reads, produce the snapshot that is appended. -/
def update_risk_metrics (prev : Option RiskSnapshot) (inp : MetricsInput) : RiskSnapshot :=
  let positions_value := (inp.positions.map (·.quantity)).sum
  let total_pnl := (inp.positions.map (·.pnl)).sum
  let starting_equity := (prev.map (·.max_equity)).getD 10000
  let cash_balance := inp.cash_override.getD ((prev.map (·.cash_balance)).getD 10000)
  let max_equity0 := (prev.map (·.max_equity)).getD 10000
  let total_equity := cash_balance + positions_value + total_pnl
  let max_equity := if max_equity0 < total_equity then total_equity else max_equity0
  let equity_floor := max_equity * (97/100)
  let current_drawdown := if 0 < max_equity then (max_equity - total_equity) / max_equity * 100 else 0
  let daily_start_equity := inp.daily_start_equity.getD starting_equity
  ⟨total_equity, max_equity, equity_floor, current_drawdown,
   total_equity - daily_start_equity, positions_value, cash_balance⟩

/-- The successive snapshots appended for one tenant by iterating
`update_risk_metrics`, starting from the latest snapshot `s0`. -/
def run_risk_metrics (prev : RiskSnapshot) : List MetricsInput → List RiskSnapshot
  | [] => []
  | inp :: rest =>
    let s := update_risk_metrics (some prev) inp
    s :: run_risk_metrics s rest

/-- Claim C9: each new snapshot's `max_equity` is the maximum of the previous
snapshot's `max_equity` and the newly computed total equity, so across any
sequence of appended snapshots `max_equity` is monotonically non-decreasing. -/
theorem c9_max_equity_monotone (s0 : RiskSnapshot) (inps : List MetricsInput) :
    List.Chain' (fun a b => a.max_equity ≤ b.max_equity)
      (s0 :: run_risk_metrics s0 inps) ∧
    ∀ (p : RiskSnapshot) (inp : MetricsInput),
      (update_risk_metrics (some p) inp).max_equity =
        max p.max_equity
          (inp.cash_override.getD p.cash_balance + (inp.positions.map (·.quantity)).sum +
            (inp.positions.map (·.pnl)).sum) := by
  have hmax : ∀ (p : RiskSnapshot) (inp : MetricsInput),
      (update_risk_metrics (some p) inp).max_equity =
        max p.max_equity
          (inp.cash_override.getD p.cash_balance + (inp.positions.map (·.quantity)).sum +
            (inp.positions.map (·.pnl)).sum) := by
    intro p inp
    simp only [update_risk_metrics, Option.map_some', Option.getD_some]
    rcases lt_or_ge p.max_equity
        (inp.cash_override.getD p.cash_balance + (inp.positions.map (·.quantity)).sum +
          (inp.positions.map (·.pnl)).sum) with h | h
    · rw [if_pos h, max_eq_right (le_of_lt h)]
    · rw [if_neg (not_lt.mpr h), max_eq_left h]
  refine ⟨?_, hmax⟩
  induction inps generalizing s0 with
  | nil => simp [run_risk_metrics]
  | cons inp rest ih =>
    simp only [run_risk_metrics]
    refine List.Chain'.cons ?_ (ih _)
    rw [hmax]
    exact le_max_left _ _

/-! ## Multi-timeframe analysis (`multi_timeframe_analysis.py`) -/

/-- The per-timeframe result of `MultiTimeframeAnalysis._analyze_timeframe`
that `_calculate_alignment` reads: the trend label and the validity flag. -/
structure TFAnalysis where
  trend : String
  valid : Bool
deriving DecidableEq

/-- `MultiTimeframeAnalysis._calculate_alignment`
(multi_timeframe_analysis.py lines 83-105), over the four per-timeframe
results keyed `5m`, `15m`, `1h`, `4h`. -/
def calculate_alignment (t5 t15 t1h t4h : TFAnalysis) : String :=
  let trends := ([t5, t15, t1h, t4h].filter (·.valid)).map (·.trend)
  if trends.isEmpty then "none"
  else
    let bullish_count := trends.count "bullish"
    let bearish_count := trends.count "bearish"
    if 3 ≤ bullish_count then "strong_bullish"
    else if 2 ≤ bullish_count then "bullish"
    else if 3 ≤ bearish_count then "strong_bearish"
    else if 2 ≤ bearish_count then "bearish"
    else "mixed"

/-- Claim C10: with two bullish and two bearish valid timeframes the
alignment is `bullish` (the bullish count is tested first), and a
`bearish`/`strong_bearish` verdict is reachable only when the bullish count
is at most 1. -/
theorem c10_alignment_bullish_first (t5 t15 t1h t4h : TFAnalysis) :
    ((([t5, t15, t1h, t4h].filter (·.valid)).map (·.trend)).count "bullish" = 2 →
     (([t5, t15, t1h, t4h].filter (·.valid)).map (·.trend)).count "bearish" = 2 →
     calculate_alignment t5 t15 t1h t4h = "bullish") ∧
    (calculate_alignment t5 t15 t1h t4h = "bearish" ∨
     calculate_alignment t5 t15 t1h t4h = "strong_bearish" →
     (([t5, t15, t1h, t4h].filter (·.valid)).map (·.trend)).count "bullish" ≤ 1) := by
  constructor
  · intro hb hbr
    have hne : ¬(([t5, t15, t1h, t4h].filter (·.valid)).map (·.trend)).isEmpty := by
      intro h
      rw [List.isEmpty_iff] at h
      rw [h] at hb
      simp at hb
    simp only [calculate_alignment, if_neg hne, hb, hbr]
    norm_num
  · intro h
    by_contra hcnt
    push_neg at hcnt
    have h2 : 2 ≤ (([t5, t15, t1h, t4h].filter (·.valid)).map (·.trend)).count "bullish" := hcnt
    rcases h with h | h <;>
    · simp only [calculate_alignment] at h
      split_ifs at h <;> simp_all

/-- Witness for C10: concrete timeframes, two bullish then two bearish,
give alignment `bullish`. -/
theorem c10_witness :
    calculate_alignment ⟨"bullish", true⟩ ⟨"bullish", true⟩ ⟨"bearish", true⟩
      ⟨"bearish", true⟩ = "bullish" :=
  (c10_alignment_bullish_first ⟨"bullish", true⟩ ⟨"bullish", true⟩ ⟨"bearish", true⟩
    ⟨"bearish", true⟩).1 (by simp) (by simp)

/-- The `alignment`/`strength` summary of `analyze_timeframes` read by
`get_trading_recommendation`. -/
structure MtfSummary where
  alignment : String
  strength : ℚ
deriving DecidableEq

/-- The `action`/`confidence` fields of the recommendation dictionary
(the `reasons` list of strings is omitted). -/
structure Recommendation where
  action : String
  confidence : ℚ
deriving DecidableEq

/-- `MultiTimeframeAnalysis.get_trading_recommendation`
(multi_timeframe_analysis.py lines 138-178). -/
def get_trading_recommendation (m : MtfSummary) (current_position : Bool) : Recommendation :=
  if m.alignment = "strong_bullish" ∧ 3 < m.strength then
    ⟨if current_position then "HOLD" else "BUY", min (70 + m.strength * 3) 95⟩
  else if m.alignment = "strong_bearish" ∧ m.strength < -3 then
    ⟨if current_position then "SELL" else "AVOID", min (70 + |m.strength| * 3) 95⟩
  else if m.alignment = "bullish" ∧ 2 < m.strength then
    ⟨if current_position then "HOLD" else "BUY", 60 + m.strength * 2⟩
  else if m.alignment = "bearish" ∧ m.strength < -2 then
    ⟨if current_position then "SELL" else "AVOID", 60 + |m.strength| * 2⟩
  else ⟨"HOLD", 40⟩

/-- Counterexample for C5: with alignment `strong_bearish`, strength `-4`
and no open position, the source returns action `AVOID`, not `SELL` as the
claim states (`SELL` is returned when a position exists). -/
theorem c5_counterexample :
    (get_trading_recommendation ⟨"strong_bearish", -4⟩ false).action = "AVOID" ∧
    decide ((get_trading_recommendation ⟨"strong_bearish", -4⟩ false).action = "SELL") = false := by
  have h : (get_trading_recommendation ⟨"strong_bearish", -4⟩ false).action = "AVOID" := by
    norm_num [get_trading_recommendation]
  exact ⟨h, by rw [h]; decide⟩

/-- Claim C5 (amended): for `strong_bullish` alignment with strength above 3
the action is BUY without a position and HOLD with one, at confidence
`min (70 + 3⬝|strength|) 95`; for `strong_bearish` alignment with strength
below −3 the action is SELL when a position exists and AVOID when none does
(the reverse of the claim), at the same confidence formula. -/
theorem c5_recommendation (s : ℚ) (pos : Bool) :
    (3 < s → get_trading_recommendation ⟨"strong_bullish", s⟩ pos =
      ⟨if pos then "HOLD" else "BUY", min (70 + 3 * |s|) 95⟩) ∧
    (s < -3 → get_trading_recommendation ⟨"strong_bearish", s⟩ pos =
      ⟨if pos then "SELL" else "AVOID", min (70 + 3 * |s|) 95⟩) := by
  constructor
  · intro h
    unfold get_trading_recommendation
    rw [if_pos ⟨rfl, h⟩]
    have hc : s * 3 = 3 * |s| := by
      rw [abs_of_pos (show (0 : ℚ) < s by linarith)]; ring
    rw [hc]
  · intro h
    unfold get_trading_recommendation
    have hne : ¬(("strong_bearish" : String) = "strong_bullish" ∧ 3 < s) := by
      intro hc
      exact absurd hc.1 (by decide)
    rw [if_neg hne, if_pos ⟨rfl, h⟩]
    have hc : |s| * 3 = 3 * |s| := mul_comm _ _
    rw [hc]

/-- Witness for C5: strength 4, no position, gives a BUY at confidence 82. -/
theorem c5_witness :
    get_trading_recommendation ⟨"strong_bullish", 4⟩ false =
      ⟨if false then "HOLD" else "BUY", min (70 + 3 * |(4 : ℚ)|) 95⟩ :=
  (c5_recommendation 4 false).1 (by norm_num)

/-! ## Technical indicators (`technical_indicators.py`): MACD -/

/-- `np.mean` over a rational list (all call sites pass non-empty lists). -/
def mean (l : List ℚ) : ℚ := l.sum / l.length

/-- `TechnicalIndicators._calculate_ema` (technical_indicators.py lines
116-128): seed with the mean of the first `period` prices, then fold the
remaining prices with multiplier `2/(period+1)`. -/
def calculate_ema (prices : List ℚ) (period : ℕ) : ℚ :=
  if prices.length < period then mean prices
  else
    let multiplier : ℚ := 2 / (period + 1)
    (prices.drop period).foldl (fun ema p => p * multiplier + ema * (1 - multiplier))
      (mean (prices.take period))

/-- The MACD line `fastEMA - slowEMA` of a price series
(technical_indicators.py lines 45-49). -/
def macd_line_of (prices : List ℚ) (fast slow : ℕ) : ℚ :=
  calculate_ema prices fast - calculate_ema prices slow

/-- The trailing MACD-line series of `calculate_macd` (technical_indicators.py
lines 53-58): the MACD line of every price prefix `prices[:i+1]` for
`i = slow .. len-1`. -/
def macd_series (prices : List ℚ) (fast slow : ℕ) : List ℚ :=
  (List.range (prices.length - slow)).map
    (fun k => macd_line_of (prices.take (slow + k + 1)) fast slow)

structure MacdResult where
  macd : ℚ
  signal : ℚ
  histogram : ℚ
deriving DecidableEq

/-- `TechnicalIndicators.calculate_macd` (technical_indicators.py lines
36-77).  Note the source computes the signal line as the EMA of the trailing
MACD series only when `len(prices) >= slow * 2`; in the band
`slow + sig ≤ len < slow * 2` it sets the signal line to the MACD line
itself. -/
def calculate_macd (prices : List ℚ) (fast slow sig : ℕ) : MacdResult :=
  if prices.length < slow + sig then ⟨0, 0, 0⟩
  else
    let m := macd_line_of prices fast slow
    let signal_line :=
      if slow * 2 ≤ prices.length then
        let mv := macd_series prices fast slow
        if sig ≤ mv.length then calculate_ema mv sig else m
      else m
    ⟨round2 m, round2 signal_line, round2 (m - signal_line)⟩

theorem macd_series_length (prices : List ℚ) (fast slow : ℕ) :
    (macd_series prices fast slow).length = prices.length - slow := by
  simp [macd_series]

theorem round2_zero : round2 0 = 0 := by norm_num [round2, rhe]

/-- A 35-point price series (26 at 100, then 9 at 200) exercising the
`slow+signal ≤ len < slow*2` band of `calculate_macd`. -/
def macd_prices_35 : List ℚ :=
  [100, 100, 100, 100, 100, 100, 100, 100, 100, 100, 100, 100, 100, 100, 100,
   100, 100, 100, 100, 100, 100, 100, 100, 100, 100, 100, 200, 200, 200, 200,
   200, 200, 200, 200, 200]

/-- Counterexample for C4: on a 35-point series (which has at least
`slow+signal = 35` points) the returned signal value is the rounded MACD
line, `27.79`, while the rounded EMA (span 9) of the trailing MACD-line
series is `21.89`; the claim's equality fails. -/
theorem c4_counterexample :
    (calculate_macd macd_prices_35 12 26 9).signal = 2779/100 ∧
    round2 (calculate_ema (macd_series macd_prices_35 12 26) 9) = 2189/100 ∧
    decide ((2779 : ℚ)/100 = 2189/100) = false := by
  refine ⟨?_, ?_, by norm_num⟩
  · norm_num [calculate_macd, macd_prices_35, macd_line_of, macd_series, calculate_ema,
      mean, round2, rhe, List.range, List.range.loop, min_def, max_def]
  · norm_num [macd_series, calculate_ema, macd_line_of, mean, round2, rhe, macd_prices_35,
      List.range, List.range.loop, min_def, max_def]

/-- Claim C4 (amended): `calculate_macd` with defaults returns the all-zero
struct below 35 points; from 35 to 51 points the signal equals the (rounded)
MACD line itself and the histogram is 0; from 52 (= 2×slow) points on the
signal is the rounded EMA (span 9) of the trailing MACD-line series and the
histogram is the rounded difference of the unrounded MACD line and signal
line. -/
theorem c4_macd_branches (prices : List ℚ) :
    (prices.length < 35 → calculate_macd prices 12 26 9 = ⟨0, 0, 0⟩) ∧
    (35 ≤ prices.length → prices.length < 52 →
      calculate_macd prices 12 26 9 =
        ⟨round2 (macd_line_of prices 12 26), round2 (macd_line_of prices 12 26), 0⟩) ∧
    (52 ≤ prices.length →
      calculate_macd prices 12 26 9 =
        ⟨round2 (macd_line_of prices 12 26),
         round2 (calculate_ema (macd_series prices 12 26) 9),
         round2 (macd_line_of prices 12 26 - calculate_ema (macd_series prices 12 26) 9)⟩) := by
  refine ⟨?_, ?_, ?_⟩
  · intro h
    unfold calculate_macd
    rw [if_pos (by omega)]
  · intro h1 h2
    unfold calculate_macd
    rw [if_neg (by omega)]
    dsimp only
    rw [if_neg (show ¬26 * 2 ≤ prices.length by omega), sub_self, round2_zero]
  · intro h
    unfold calculate_macd
    rw [if_neg (by omega)]
    dsimp only
    rw [if_pos (show 26 * 2 ≤ prices.length by omega),
      if_pos (show 9 ≤ (macd_series prices 12 26).length by rw [macd_series_length]; omega)]

/-- Witness for C4: the 35-point series lands in the middle branch, where
the signal field equals the rounded MACD line and the histogram is 0. -/
theorem c4_witness :
    calculate_macd macd_prices_35 12 26 9 =
      ⟨round2 (macd_line_of macd_prices_35 12 26),
       round2 (macd_line_of macd_prices_35 12 26), 0⟩ :=
  (c4_macd_branches macd_prices_35).2.1 (by norm_num [macd_prices_35])
    (by norm_num [macd_prices_35])

/-! ## Correlation risk (`advanced_risk_manager.py`)

`calculate_correlation` computes the Pearson correlation
`corr = S_xy / sqrt (S_xx * S_yy)` of the two return series and rounds it to
3 decimal places.  The square root of a rational is irrational in general, so
the embedding computes the rounded value directly with integer arithmetic:
`round-half-even (1000*|corr|)` is determined by the integer square-root
floor of `1000000 * S_xy^2 / (S_xx * S_yy)` together with one comparison of
`4 * x^2` against `(2*n0+1)^2`, which decides whether the fractional part of
`1000*|corr|` is below, above or exactly one half. -/

/-- `⌊√q⌋` for a rational: with `q = a/b` in lowest terms,
`⌊√(a/b)⌋ = ⌊√(a*b)/b⌋ = ⌊⌊√(a*b)⌋/b⌋`. -/
def rat_sqrt_floor (q : ℚ) : ℕ :=
  if q ≤ 0 then 0 else Nat.sqrt (q.num.toNat * q.den) / q.den

/-- `round(1000 * sqrt (s2 / d)) / 1000` with round-half-to-even, for
`d > 0`: the magnitude part of Python's `round(corr, 3)` with
`corr^2 = s2 / d`. -/
def round3_sqrt_mag (s2 d : ℚ) : ℚ :=
  let x2 := 1000000 * s2 / d
  let n0 := rat_sqrt_floor x2
  let n : ℕ :=
    if 4 * x2 < ((2 * n0 + 1 : ℕ) : ℚ) ^ 2 then n0
    else if ((2 * n0 + 1 : ℕ) : ℚ) ^ 2 < 4 * x2 then n0 + 1
    else if n0 % 2 = 0 then n0 else n0 + 1
  (n : ℚ) / 1000

/-- `np.diff(a) / a[:-1]`: the return series of a price series. -/
def returns_of (l : List ℚ) : List ℚ :=
  List.zipWith (fun prev next => (next - prev) / prev) l l.tail

/-- Mean-centering, as `np.corrcoef` applies to each input series. -/
def centered (l : List ℚ) : List ℚ := l.map (fun x => x - mean l)

/-- Dot product of two lists. -/
def dotp (a b : List ℚ) : ℚ := (List.zipWith (· * ·) a b).sum

/-- Pearson correlation of two series rounded to 3 decimals
(`np.corrcoef(x, y)[0, 1]` followed by `round(float(corr), 3)`).  A zero
variance in either series yields NaN in numpy, which the caller's
`abs(corr) > abs(max_corr)` comparison treats as never larger; the embedding
returns `0` in that case, with the same downstream effect. -/
def corr_rounded (x y : List ℚ) : ℚ :=
  let cx := centered x
  let cy := centered y
  let sxy := dotp cx cy
  let d := dotp cx cx * dotp cy cy
  if d ≤ 0 then 0
  else if sxy < 0 then -(round3_sqrt_mag (sxy ^ 2) d) else round3_sqrt_mag (sxy ^ 2) d

/-- `AdvancedRiskManager.calculate_correlation`
(advanced_risk_manager.py lines 88-109). -/
def calculate_correlation (prices_a prices_b : List ℚ) : ℚ :=
  if prices_a.length < 20 ∨ prices_b.length < 20 then 0
  else
    let n := min (min prices_a.length prices_b.length) 50
    let a := prices_a.drop (prices_a.length - n)
    let b := prices_b.drop (prices_b.length - n)
    corr_rounded (returns_of a) (returns_of b)

/-- An open position as read by the advanced risk manager: its symbol and
the committed capital (`quantity`). -/
structure Position where
  symbol : String
  quantity : ℚ
deriving DecidableEq

/-- The `for pos in existing_positions` loop of `check_correlation_risk`
(advanced_risk_manager.py lines 128-141), accumulating
`(max_corr, correlated_with)`. -/
def corr_fold (new_prices : List ℚ) (new_symbol : String) (hist : String → List ℚ) :
    List Position → ℚ × Option String → ℚ × Option String
  | [], acc => acc
  | pos :: rest, acc =>
    let next :=
      if pos.symbol = new_symbol then acc
      else if (hist pos.symbol).length < 20 then acc
      else
        let corr := calculate_correlation new_prices (hist pos.symbol)
        if |acc.1| < |corr| then (corr, some pos.symbol) else acc
    corr_fold new_prices new_symbol hist rest next

structure CorrCheckResult where
  allowed : Bool
  max_correlation : ℚ
  correlated_with : Option String
deriving DecidableEq

/-- `AdvancedRiskManager.check_correlation_risk`
(advanced_risk_manager.py lines 111-149).  The `price_history` dictionary is
passed as a function, its `.get(symbol, [])` being function application. -/
def check_correlation_risk (new_symbol : String) (existing_positions : List Position)
    (hist : String → List ℚ) : CorrCheckResult :=
  if existing_positions.isEmpty then ⟨true, 0, none⟩
  else if (hist new_symbol).length < 20 then ⟨true, 0, none⟩
  else
    let mc := corr_fold (hist new_symbol) new_symbol hist existing_positions (0, none)
    ⟨decide (|mc.1| < 7/10), mc.1, mc.2⟩

/-- The correlations actually computed by the loop of
`check_correlation_risk`: one per existing position whose symbol differs
from the new one and has at least 20 cached points. -/
def considered_corrs (new_symbol : String) (ps : List Position) (hist : String → List ℚ) :
    List ℚ :=
  (ps.filter (fun p => !(p.symbol == new_symbol) && !(decide ((hist p.symbol).length < 20)))).map
    (fun p => calculate_correlation (hist new_symbol) (hist p.symbol))

theorem le_foldr_max (a : ℚ) (l : List ℚ) : a ≤ l.foldr max a := by
  induction l with
  | nil => exact le_refl a
  | cons x xs ih => exact le_trans ih (le_max_right _ _)

theorem foldr_max_init (a b : ℚ) (l : List ℚ) :
    l.foldr max (max a b) = max b (l.foldr max a) := by
  induction l with
  | nil => exact max_comm a b
  | cons x xs ih => simp only [List.foldr_cons, ih, max_left_comm]

theorem foldr_max_of_all_zero (l : List ℚ) (h : ∀ x ∈ l, x = 0) : l.foldr max 0 = 0 := by
  induction l with
  | nil => rfl
  | cons x xs ih =>
    simp only [List.foldr_cons]
    rw [h x (List.mem_cons_self x xs), ih (fun y hy => h y (List.mem_cons_of_mem _ hy))]
    simp

theorem calculate_correlation_short (a b : List ℚ) (h : a.length < 20) :
    calculate_correlation a b = 0 := by
  unfold calculate_correlation
  rw [if_pos (Or.inl h)]

theorem abs_corr_fold (ns : String) (hist : String → List ℚ) (l : List Position)
    (acc : ℚ × Option String) :
    |(corr_fold (hist ns) ns hist l acc).1| =
      ((considered_corrs ns l hist).map (fun c => |c|)).foldr max |acc.1| := by
  induction l generalizing acc with
  | nil => simp [corr_fold, considered_corrs]
  | cons p rest ih =>
    simp only [corr_fold]
    by_cases h1 : p.symbol = ns
    · have hcc : considered_corrs ns (p :: rest) hist = considered_corrs ns rest hist := by
        simp [considered_corrs, List.filter_cons, h1]
      rw [if_pos h1, hcc, ih]
    · by_cases h2 : (hist p.symbol).length < 20
      · have hcc : considered_corrs ns (p :: rest) hist = considered_corrs ns rest hist := by
          simp [considered_corrs, List.filter_cons, h1, h2]
        rw [if_neg h1, if_pos h2, hcc, ih]
      · have hcc : considered_corrs ns (p :: rest) hist =
            calculate_correlation (hist ns) (hist p.symbol) :: considered_corrs ns rest hist := by
          simp [considered_corrs, List.filter_cons, h1, h2]
        rw [if_neg h1, if_neg h2, hcc]
        simp only [List.map_cons, List.foldr_cons]
        by_cases h3 : |acc.1| < |calculate_correlation (hist ns) (hist p.symbol)|
        · rw [if_pos h3, ih]
          conv_lhs => rw [show |calculate_correlation (hist ns) (hist p.symbol)| =
            max |acc.1| |calculate_correlation (hist ns) (hist p.symbol)| from
            (max_eq_right (le_of_lt h3)).symm]
          exact foldr_max_init _ _ _
        · rw [if_neg h3, ih,
            max_eq_right (le_trans (not_lt.mp h3) (le_foldr_max _ _))]

/-- Claim C6 (amended): `check_correlation_risk` returns `allowed = false`
iff the maximum absolute correlation found is at least `0.7` — the source
compares with strict `<`, so a maximum of exactly `0.7` is rejected, not
allowed; and the reported `max_correlation` realises the maximum absolute
pairwise correlation over the considered positions. -/
theorem c6_correlation_threshold (ns : String) (ps : List Position)
    (hist : String → List ℚ) :
    ((check_correlation_risk ns ps hist).allowed = true ↔
      |(check_correlation_risk ns ps hist).max_correlation| < 7/10) ∧
    |(check_correlation_risk ns ps hist).max_correlation| =
      ((considered_corrs ns ps hist).map (fun c => |c|)).foldr max 0 := by
  unfold check_correlation_risk
  by_cases hemp : ps.isEmpty
  · rw [if_pos hemp]
    have : ps = [] := List.isEmpty_iff.mp hemp
    subst this
    constructor
    · simp
    · simp [considered_corrs]
  · rw [if_neg hemp]
    by_cases hshort : (hist ns).length < 20
    · rw [if_pos hshort]
      constructor
      · simp
      · have hz : ∀ x ∈ (considered_corrs ns ps hist).map (fun c => |c|), x = 0 := by
          intro x hx
          obtain ⟨c, hc, rfl⟩ := List.mem_map.mp hx
          obtain ⟨p, _, rfl⟩ := List.mem_map.mp hc
          rw [calculate_correlation_short _ _ hshort]
          simp
        simp only []
        rw [foldr_max_of_all_zero _ hz]
        simp
    · rw [if_neg hshort]
      constructor
      · simp [decide_eq_true_eq]
      · simpa using abs_corr_fold ns hist ps (0, none)

/-- A 20-point price series whose return series is
`[0.1, -0.1, 0, ..., 0]`. -/
def corr_prices_new : List ℚ :=
  [1, 11/10, 99/100, 99/100, 99/100, 99/100, 99/100, 99/100, 99/100, 99/100,
   99/100, 99/100, 99/100, 99/100, 99/100, 99/100, 99/100, 99/100, 99/100, 99/100]

/-- A 20-point price series whose return series is
`[0.7, -0.7, 0.5, 0.5, -0.4, -0.6, 0, ..., 0]`; its Pearson correlation with
the returns of `corr_prices_new` is exactly `0.7`. -/
def corr_prices_old : List ℚ :=
  [1, 17/10, 51/100, 153/200, 459/400, 1377/2000, 1377/5000, 1377/5000, 1377/5000,
   1377/5000, 1377/5000, 1377/5000, 1377/5000, 1377/5000, 1377/5000, 1377/5000,
   1377/5000, 1377/5000, 1377/5000, 1377/5000]

/-- The shared price-history cache holding the two series above. -/
def corr_hist : String → List ℚ := fun s =>
  if s = "NEW" then corr_prices_new else if s = "OLD" then corr_prices_old else []

/-- The return series of `corr_prices_new`. -/
def ret_new : List ℚ :=
  [1/10, -1/10, 0, 0, 0, 0, 0, 0, 0, 0, 0, 0, 0, 0, 0, 0, 0, 0, 0]

/-- The return series of `corr_prices_old`. -/
def ret_old : List ℚ :=
  [7/10, -7/10, 1/2, 1/2, -2/5, -3/5, 0, 0, 0, 0, 0, 0, 0, 0, 0, 0, 0, 0, 0]

theorem returns_new_eq : returns_of corr_prices_new = ret_new := by
  norm_num [returns_of, corr_prices_new, ret_new, List.zipWith]

theorem returns_old_eq : returns_of corr_prices_old = ret_old := by
  norm_num [returns_of, corr_prices_old, ret_old, List.zipWith]

theorem centered_ret_new : centered ret_new = ret_new := by
  norm_num [centered, ret_new, mean]

theorem centered_ret_old : centered ret_old = ret_old := by
  norm_num [centered, ret_old, mean]

theorem dotp_new_new : dotp ret_new ret_new = 1/50 := by
  norm_num [dotp, ret_new, List.zipWith]

theorem dotp_new_old : dotp ret_new ret_old = 7/50 := by
  norm_num [dotp, ret_new, ret_old, List.zipWith]

theorem dotp_old_old : dotp ret_old ret_old = 2 := by
  norm_num [dotp, ret_old, List.zipWith]

theorem round3_val : round3_sqrt_mag (49/2500) (1/25) = 7/10 := by
  have h1 : (1000000 : ℚ) * (49/2500) / (1/25) = 490000 := by norm_num
  have h2 : rat_sqrt_floor 490000 = 700 := by
    have hton : (490000 : ℤ).toNat = 490000 := rfl
    have hsq : Nat.sqrt 490000 = 700 := (Nat.eq_sqrt.mpr ⟨by norm_num, by norm_num⟩).symm
    norm_num [rat_sqrt_floor, hton, hsq, Rat.num_ofNat, Rat.den_ofNat]
  simp only [round3_sqrt_mag, h1, h2]
  norm_num

theorem corr_value : calculate_correlation corr_prices_new corr_prices_old = 7/10 := by
  have hlen1 : corr_prices_new.length = 20 := by norm_num [corr_prices_new]
  have hlen2 : corr_prices_old.length = 20 := by norm_num [corr_prices_old]
  norm_num [calculate_correlation, corr_rounded, hlen1, hlen2, returns_new_eq, returns_old_eq,
    centered_ret_new, centered_ret_old, dotp_new_new, dotp_new_old, dotp_old_old,
    round3_val, min_def]

/-- Counterexample for C6: a pair of cached series whose maximum absolute
pairwise return correlation is exactly `0.7` — which does not strictly
exceed `0.7` — yet `check_correlation_risk` rejects (`allowed = false`),
because the source allows only strictly below the threshold. -/
theorem c6_counterexample :
    (check_correlation_risk "NEW" [⟨"OLD", 100⟩] corr_hist).allowed = false ∧
    (check_correlation_risk "NEW" [⟨"OLD", 100⟩] corr_hist).max_correlation = 7/10 ∧
    decide ((7 : ℚ)/10 > 7/10) = false := by
  have hs1 : (("OLD" : String) = "NEW") = False := by simp
  have hs2 : (("NEW" : String) = "NEW") = True := by simp
  have hs3 : (("OLD" : String) = "OLD") = True := by simp
  have hlen1 : corr_prices_new.length = 20 := by norm_num [corr_prices_new]
  have hlen2 : corr_prices_old.length = 20 := by norm_num [corr_prices_old]
  refine ⟨?_, ?_, by norm_num⟩ <;>
  · norm_num [check_correlation_risk, corr_fold, corr_hist, corr_value, hs1, hs2, hs3,
      hlen1, hlen2, abs_of_nonneg]

/-! ## Exit evaluation (`bot_engine.py`, `BotEngine.check_sell_signal`)

The sell reasons are f-strings in the source; the embedding names each one
with a constructor of `SellReason` (the numeric interpolations do not affect
which rule fired). -/

inductive SellReason
  | noReason
  | trailingStop
  | profitTarget
  | stopLoss
  | techSell
  | rsiOverbought
  | regimeChange
  | combinedSell
  | timeExit
deriving DecidableEq

/-- The inputs of the exit decision of `check_sell_signal`, as computed by
lines 410-434 and 477-479 of bot_engine.py: the position's unrealized P&L
percent, the retracement from the (already updated) high-water mark, the
technical signal and its confidence, the RSI and regime from the enhanced
analysis, the AI signal / buy-recommendation flag and combined confidence,
and the position age in hours. -/
structure SellContext where
  pnl_percent : ℚ
  drawdown_from_high : ℚ
  tech_signal : String
  tech_confidence : ℚ
  rsi : ℚ
  regime : String
  ai_signal : String
  ai_buy_recommendation : Bool
  combined_confidence : ℚ
  hours_held : ℚ
deriving DecidableEq

/-- Rules 1-7 of `check_sell_signal` (bot_engine.py lines 438-474): one
`if`/`elif` chain, so among these seven the first matching rule decides. -/
def sell_rules_chain (ctx : SellContext) : Bool × SellReason :=
  if 3 < ctx.pnl_percent ∧ 2 ≤ ctx.drawdown_from_high then (true, .trailingStop)
  else if 5 ≤ ctx.pnl_percent then (true, .profitTarget)
  else if ctx.pnl_percent ≤ -3 then (true, .stopLoss)
  else if ctx.tech_signal = "SELL" ∧ 70 < ctx.tech_confidence then (true, .techSell)
  else if 70 < ctx.rsi ∧ 2 < ctx.pnl_percent then (true, .rsiOverbought)
  else if (ctx.regime = "strong_downtrend" ∨ ctx.regime = "downtrend") ∧ ctx.pnl_percent < 3 then
    (true, .regimeChange)
  else if (ctx.ai_signal = "SELL" ∨ ctx.ai_buy_recommendation = false) ∧ ctx.tech_signal = "SELL" then
    (if 60 < ctx.combined_confidence then (true, .combinedSell) else (false, .noReason))
  else (false, .noReason)

/-- The full exit decision of `check_sell_signal` (bot_engine.py lines
436-482): the rule-1-to-7 chain followed by rule 8, which is a separate `if`
(not an `elif`) and therefore overrides both the decision and the recorded
reason whenever its condition holds. -/
def check_sell_decision (ctx : SellContext) : Bool × SellReason :=
  let base := sell_rules_chain ctx
  if 24 < ctx.hours_held ∧ ctx.pnl_percent < 2 then (true, .timeExit) else base

/-- A concrete exit context: P&L −3% (rule (c), hard stop, matches first in
the chain), held 25 hours (rule (h) also matches). -/
def sell_ctx_example : SellContext :=
  ⟨-3, 3, "HOLD", 0, 50, "neutral", "HOLD", true, 0, 25⟩

/-- Counterexample for C2: rule (c) (hard stop at −3%) is the first matching
rule of the chain, yet the recorded reason is rule (h)'s time-based exit,
because rule 8 is evaluated as an independent `if` after the chain and
overwrites the reason. -/
theorem c2_counterexample :
    sell_rules_chain sell_ctx_example = (true, .stopLoss) ∧
    check_sell_decision sell_ctx_example = (true, .timeExit) ∧
    decide (SellReason.timeExit = SellReason.stopLoss) = false := by
  refine ⟨?_, ?_, by decide⟩ <;>
    norm_num [sell_rules_chain, check_sell_decision, sell_ctx_example]

/-- Claim C2 (amended): rules (a)-(g) form a first-match-wins chain, but
rule (h) (age > 24h with gain < 2%) is evaluated independently afterwards:
when it matches it decides the sale and overrides the recorded reason even
if an earlier rule matched; only when it does not match does the first
matching rule of (a)-(g) determine the decision and the reason. -/
theorem c2_sell_rule_order (ctx : SellContext) :
    (24 < ctx.hours_held ∧ ctx.pnl_percent < 2 →
      check_sell_decision ctx = (true, .timeExit)) ∧
    (¬(24 < ctx.hours_held ∧ ctx.pnl_percent < 2) →
      check_sell_decision ctx = sell_rules_chain ctx) ∧
    (3 < ctx.pnl_percent ∧ 2 ≤ ctx.drawdown_from_high →
      sell_rules_chain ctx = (true, .trailingStop)) ∧
    (¬(3 < ctx.pnl_percent ∧ 2 ≤ ctx.drawdown_from_high) → 5 ≤ ctx.pnl_percent →
      sell_rules_chain ctx = (true, .profitTarget)) ∧
    (¬(3 < ctx.pnl_percent ∧ 2 ≤ ctx.drawdown_from_high) → ¬(5 ≤ ctx.pnl_percent) →
      ctx.pnl_percent ≤ -3 → sell_rules_chain ctx = (true, .stopLoss)) ∧
    (¬(3 < ctx.pnl_percent ∧ 2 ≤ ctx.drawdown_from_high) → ¬(5 ≤ ctx.pnl_percent) →
      ¬(ctx.pnl_percent ≤ -3) → ctx.tech_signal = "SELL" ∧ 70 < ctx.tech_confidence →
      sell_rules_chain ctx = (true, .techSell)) ∧
    (¬(3 < ctx.pnl_percent ∧ 2 ≤ ctx.drawdown_from_high) → ¬(5 ≤ ctx.pnl_percent) →
      ¬(ctx.pnl_percent ≤ -3) → ¬(ctx.tech_signal = "SELL" ∧ 70 < ctx.tech_confidence) →
      70 < ctx.rsi ∧ 2 < ctx.pnl_percent →
      sell_rules_chain ctx = (true, .rsiOverbought)) ∧
    (¬(3 < ctx.pnl_percent ∧ 2 ≤ ctx.drawdown_from_high) → ¬(5 ≤ ctx.pnl_percent) →
      ¬(ctx.pnl_percent ≤ -3) → ¬(ctx.tech_signal = "SELL" ∧ 70 < ctx.tech_confidence) →
      ¬(70 < ctx.rsi ∧ 2 < ctx.pnl_percent) →
      (ctx.regime = "strong_downtrend" ∨ ctx.regime = "downtrend") ∧ ctx.pnl_percent < 3 →
      sell_rules_chain ctx = (true, .regimeChange)) ∧
    (¬(3 < ctx.pnl_percent ∧ 2 ≤ ctx.drawdown_from_high) → ¬(5 ≤ ctx.pnl_percent) →
      ¬(ctx.pnl_percent ≤ -3) → ¬(ctx.tech_signal = "SELL" ∧ 70 < ctx.tech_confidence) →
      ¬(70 < ctx.rsi ∧ 2 < ctx.pnl_percent) →
      ¬((ctx.regime = "strong_downtrend" ∨ ctx.regime = "downtrend") ∧ ctx.pnl_percent < 3) →
      (ctx.ai_signal = "SELL" ∨ ctx.ai_buy_recommendation = false) ∧ ctx.tech_signal = "SELL" →
      60 < ctx.combined_confidence →
      sell_rules_chain ctx = (true, .combinedSell)) := by
  refine ⟨?_, ?_, ?_, ?_, ?_, ?_, ?_, ?_, ?_⟩
  · intro h
    unfold check_sell_decision
    rw [if_pos h]
  · intro h
    unfold check_sell_decision
    rw [if_neg h]
  · intro h1
    unfold sell_rules_chain
    rw [if_pos h1]
  · intro h1 h2
    unfold sell_rules_chain
    rw [if_neg h1, if_pos h2]
  · intro h1 h2 h3
    unfold sell_rules_chain
    rw [if_neg h1, if_neg h2, if_pos h3]
  · intro h1 h2 h3 h4
    unfold sell_rules_chain
    rw [if_neg h1, if_neg h2, if_neg h3, if_pos h4]
  · intro h1 h2 h3 h4 h5
    unfold sell_rules_chain
    rw [if_neg h1, if_neg h2, if_neg h3, if_neg h4, if_pos h5]
  · intro h1 h2 h3 h4 h5 h6
    unfold sell_rules_chain
    rw [if_neg h1, if_neg h2, if_neg h3, if_neg h4, if_neg h5, if_pos h6]
  · intro h1 h2 h3 h4 h5 h6 h7 h8
    unfold sell_rules_chain
    rw [if_neg h1, if_neg h2, if_neg h3, if_neg h4, if_neg h5, if_neg h6, if_pos h7,
      if_pos h8]

/-- Witness for C2: at the concrete context above, rule (h) matches and the
decision is the time-based exit. -/
theorem c2_witness : check_sell_decision sell_ctx_example = (true, .timeExit) :=
  (c2_sell_rule_order sell_ctx_example).1 (by norm_num [sell_ctx_example])

/-! ## Entry evaluation (`bot_engine.py`, `BotEngine.check_buy_signal`)

In the source, the block that submits the market BUY order, inserts the
Trade and Position documents and decrements the cash balance (lines 356-403)
is indented inside the `if position_size < 10:` branch *after* its `return`
statement, so it is unreachable; when the computed size is at least $10 the
`else` belonging to that `if` (lines 404-405) merely logs
"Trade not approved" with the validation reason and returns.  The embedding
is the function as written: every path rejects. -/

/-- The fields of the enhanced analysis dictionary that `check_buy_signal`
reads: `confidence` (the combined confidence), the `buy_recommendation`
flag, and `portfolio_heat.heat_percent`. -/
structure BuyAnalysis where
  confidence : ℚ
  buy_recommendation : Bool
  heat_percent : ℚ
deriving DecidableEq

/-- The externally observable outcome of one `check_buy_signal` call. -/
inductive BuyAction
  | reject (reason : String)
  | submitBuy (size : ℚ)
deriving DecidableEq

/-- `BotEngine.check_buy_signal` (bot_engine.py lines 308-405). -/
def check_buy_signal (symbol : String) (analysis : BuyAnalysis) (risk_metrics : RiskMetrics)
    (all_positions : List Position) (hist : String → List ℚ) : BuyAction :=
  let validation := validate_trade ⟨analysis.confidence, analysis.buy_recommendation⟩ risk_metrics
  if validation.approved = false then .reject validation.reason
  else if analysis.buy_recommendation = false then .reject "No buy recommendation"
  else if 15 ≤ analysis.heat_percent then .reject "Portfolio heat too high"
  else
    let correlation_check := check_correlation_risk symbol all_positions hist
    if correlation_check.allowed = false then .reject "High correlation"
    else
      let position_size := calculate_optimal_position_size (analysis.confidence / 100) (1/10)
        risk_metrics.total_equity (analysis.heat_percent / 100) (15/100)
      if position_size < 10 then .reject "Position size too small"
      else .reject validation.reason

/-- Claim C1 (code bug): at a concrete input every gate passes — the risk
validation approves, the buy flag is set, heat 0% is below 15%, the
correlation check allows, and the optimal size is $200 ≥ $10 — yet
`check_buy_signal` rejects; indeed it rejects on every input, so no BUY
order, Trade, Position or cash decrement ever happens. -/
theorem c1_buy_dead_code :
    (validate_trade ⟨95, true⟩ ⟨10000, 10000, 0, 10000⟩).approved = true ∧
    (check_correlation_risk "BTC-USD" [] (fun _ => [])).allowed = true ∧
    calculate_optimal_position_size (95/100) (1/10) 10000 0 (15/100) = 200 ∧
    check_buy_signal "BTC-USD" ⟨95, true, 0⟩ ⟨10000, 10000, 0, 10000⟩ [] (fun _ => []) =
      .reject "All checks passed" ∧
    ∀ (sym : String) (a : BuyAnalysis) (rm : RiskMetrics) (ps : List Position)
      (h : String → List ℚ), ∃ r, check_buy_signal sym a rm ps h = .reject r := by
  have happ : (validate_trade ⟨95, true⟩ ⟨10000, 10000, 0, 10000⟩).approved = true := by
    norm_num [validate_trade, check_capital_floor, check_daily_loss]
  have hcorr : (check_correlation_risk "BTC-USD" [] (fun _ => [])).allowed = true := by
    simp [check_correlation_risk]
  have hsize : calculate_optimal_position_size (95/100) (1/10) 10000 0 (15/100) = 200 := by
    norm_num [calculate_optimal_position_size, round2, rhe, min_def, max_def]
  have hreason : (validate_trade ⟨95, true⟩ ⟨10000, 10000, 0, 10000⟩).reason =
      "All checks passed" := by
    norm_num [validate_trade, check_capital_floor, check_daily_loss, get_rejection_reason]
  refine ⟨happ, hcorr, hsize, ?_, ?_⟩
  · unfold check_buy_signal
    rw [if_neg (by rw [happ]; simp), if_neg (by simp), if_neg (by norm_num)]
    dsimp only
    rw [if_neg (by rw [hcorr]; simp),
      if_neg (by rw [show ((0 : ℚ)/100) = 0 from by norm_num, hsize]; norm_num), hreason]
  · intro sym a rm ps h
    unfold check_buy_signal
    dsimp only
    split_ifs <;> exact ⟨_, rfl⟩

/-! ## Conditional Order Manager (`advanced_order_manager.py`)

The order dictionaries carry different price fields per order type
(`limit_price`, `stop_price`, `take_profit_price`, `stop_loss_price`); the
embedding flattens them into one structure, with the `type` tag selecting
which fields the trigger logic reads, exactly as the source does. -/

structure PendingOrder where
  id : String
  user_id : String
  symbol : String
  side : String
  otype : String
  quantity : ℚ
  limit_price : ℚ
  stop_price : ℚ
  take_profit_price : ℚ
  stop_loss_price : ℚ
  status : String
  executed_reason : Option String
deriving DecidableEq

/-- The in-place OCO mutation of lines 131-138: side forced to SELL and the
leg that fired recorded. -/
def set_oco_sell (o : PendingOrder) (reason : String) : PendingOrder :=
  ⟨o.id, o.user_id, o.symbol, "SELL", o.otype, o.quantity, o.limit_price, o.stop_price,
   o.take_profit_price, o.stop_loss_price, o.status, some reason⟩

/-- The status mutation of line 149 on successful execution. -/
def mark_executed (o : PendingOrder) : PendingOrder :=
  ⟨o.id, o.user_id, o.symbol, o.side, o.otype, o.quantity, o.limit_price, o.stop_price,
   o.take_profit_price, o.stop_loss_price, "EXECUTED", o.executed_reason⟩

/-- The status written to storage by `cancel_order` (line 173). -/
def mark_cancelled (o : PendingOrder) : PendingOrder :=
  ⟨o.id, o.user_id, o.symbol, o.side, o.otype, o.quantity, o.limit_price, o.stop_price,
   o.take_profit_price, o.stop_loss_price, "CANCELLED", o.executed_reason⟩

/-- The trigger evaluation of `check_pending_orders`
(advanced_order_manager.py lines 110-138): returns whether the order should
execute, together with the (possibly OCO-mutated) order. -/
def evalTrigger (o : PendingOrder) (p : ℚ) : Bool × PendingOrder :=
  if o.otype = "LIMIT" then
    if o.side = "BUY" ∧ p ≤ o.limit_price then (true, o)
    else if o.side = "SELL" ∧ o.limit_price ≤ p then (true, o)
    else (false, o)
  else if o.otype = "STOP_LIMIT" then
    if o.side = "BUY" ∧ o.stop_price ≤ p then
      (if p ≤ o.limit_price then (true, o) else (false, o))
    else if o.side = "SELL" ∧ p ≤ o.stop_price then
      (if o.limit_price ≤ p then (true, o) else (false, o))
    else (false, o)
  else if o.otype = "OCO" then
    if o.take_profit_price ≤ p then (true, set_oco_sell o "Take Profit")
    else if p ≤ o.stop_loss_price then (true, set_oco_sell o "Stop Loss")
    else (false, o)
  else (false, o)

/-- `AdvancedOrderManager.check_pending_orders`
(advanced_order_manager.py lines 99-164): returns the remaining pending
index and the executed orders.  The execution collaborator's success is an
oracle `execOk` keyed by order id; a price of `0` (symbol absent from
`current_prices`) skips the order. -/
def check_pending_orders (prices : String → ℚ) (execOk : String → Bool) :
    List PendingOrder → List PendingOrder × List PendingOrder
  | [] => ([], [])
  | o :: rest =>
    let r := check_pending_orders prices execOk rest
    let p := prices o.symbol
    if p = 0 then (o :: r.1, r.2)
    else
      let t := evalTrigger o p
      if t.1 = true then
        if execOk o.id = true then (r.1, mark_executed t.2 :: r.2)
        else (t.2 :: r.1, r.2)
      else (t.2 :: r.1, r.2)

structure CancelResult where
  remaining : List PendingOrder
  cancelled : List PendingOrder
  success : Bool
  message : String
deriving DecidableEq

/-- `AdvancedOrderManager.cancel_order` (advanced_order_manager.py lines
166-178): a pending id is removed from the index and stored as CANCELLED;
an unknown id fails with "Order not found" and changes nothing. -/
def cancel_order (oid : String) (orders : List PendingOrder) : CancelResult :=
  if orders.any (fun o => o.id == oid) then
    ⟨orders.filter (fun o => !(o.id == oid)),
     (orders.filter (fun o => o.id == oid)).map mark_cancelled,
     true, "Order cancelled"⟩
  else ⟨orders, [], false, "Order not found"⟩

theorem evalTrigger_status (o : PendingOrder) (p : ℚ) :
    (evalTrigger o p).2.status = o.status ∧ (evalTrigger o p).2.id = o.id := by
  unfold evalTrigger set_oco_sell
  split_ifs <;> exact ⟨rfl, rfl⟩

theorem check_rem_pending (prices : String → ℚ) (execOk : String → Bool)
    (orders : List PendingOrder) (hpend : ∀ o ∈ orders, o.status = "PENDING") :
    ∀ o ∈ (check_pending_orders prices execOk orders).1, o.status = "PENDING" := by
  induction orders with
  | nil => simp [check_pending_orders]
  | cons o rest ih =>
    have ho : o.status = "PENDING" := hpend o (List.mem_cons_self o rest)
    have hrest := ih (fun x hx => hpend x (List.mem_cons_of_mem _ hx))
    intro x hx
    simp only [check_pending_orders] at hx
    split_ifs at hx with h1 h2 h3
    · rcases List.mem_cons.mp hx with rfl | hx
      · exact ho
      · exact hrest x hx
    · exact hrest x hx
    · rcases List.mem_cons.mp hx with rfl | hx
      · rw [(evalTrigger_status o (prices o.symbol)).1]; exact ho
      · exact hrest x hx
    · rcases List.mem_cons.mp hx with rfl | hx
      · rw [(evalTrigger_status o (prices o.symbol)).1]; exact ho
      · exact hrest x hx

theorem check_ex_executed (prices : String → ℚ) (execOk : String → Bool)
    (orders : List PendingOrder) :
    ∀ o ∈ (check_pending_orders prices execOk orders).2, o.status = "EXECUTED" := by
  induction orders with
  | nil => simp [check_pending_orders]
  | cons o rest ih =>
    intro x hx
    simp only [check_pending_orders] at hx
    split_ifs at hx with h1 h2 h3
    · exact ih x hx
    · rcases List.mem_cons.mp hx with rfl | hx
      · rfl
      · exact ih x hx
    · exact ih x hx
    · exact ih x hx

theorem check_covers (prices : String → ℚ) (execOk : String → Bool)
    (orders : List PendingOrder) :
    ∀ o ∈ orders,
      (∃ r ∈ (check_pending_orders prices execOk orders).1, r.id = o.id) ∨
      (∃ e ∈ (check_pending_orders prices execOk orders).2,
        e.id = o.id ∧ execOk o.id = true) := by
  induction orders with
  | nil => simp
  | cons o rest ih =>
    intro x hx
    rcases List.mem_cons.mp hx with rfl | hx
    · simp only [check_pending_orders]
      split_ifs with h1 h2 h3
      · exact Or.inl ⟨x, List.mem_cons_self _ _, rfl⟩
      · refine Or.inr ⟨mark_executed (evalTrigger x (prices x.symbol)).2,
          List.mem_cons_self _ _, ?_, h3⟩
        show (evalTrigger x (prices x.symbol)).2.id = x.id
        exact (evalTrigger_status x (prices x.symbol)).2
      · exact Or.inl ⟨(evalTrigger x (prices x.symbol)).2, List.mem_cons_self _ _,
          (evalTrigger_status x (prices x.symbol)).2⟩
      · exact Or.inl ⟨(evalTrigger x (prices x.symbol)).2, List.mem_cons_self _ _,
          (evalTrigger_status x (prices x.symbol)).2⟩
    · rcases ih x hx with ⟨r, hr, hrid⟩ | ⟨e, he, heid⟩
      · refine Or.inl ?_
        simp only [check_pending_orders]
        split_ifs with h1 h2 h3
        · exact ⟨r, List.mem_cons_of_mem _ hr, hrid⟩
        · exact ⟨r, hr, hrid⟩
        · exact ⟨r, List.mem_cons_of_mem _ hr, hrid⟩
        · exact ⟨r, List.mem_cons_of_mem _ hr, hrid⟩
      · simp only [check_pending_orders]
        split_ifs with h1 h2 h3
        · exact Or.inr ⟨e, he, heid⟩
        · exact Or.inr ⟨e, List.mem_cons_of_mem _ he, heid⟩
        · exact Or.inr ⟨e, he, heid⟩
        · exact Or.inr ⟨e, he, heid⟩

/-- Claim C8: pending orders only move PENDING→EXECUTED (on a successful
execution, leaving the index) or PENDING→CANCELLED (via `cancel_order`);
the remaining index stays PENDING (a failed or untriggered execution keeps
the order there), every order ends up either remaining or executed-with-
successful-collaborator-call, and cancelling an unknown id fails with
"Order not found" changing no state. -/
theorem c8_order_lifecycle (orders : List PendingOrder) (prices : String → ℚ)
    (execOk : String → Bool) (oid : String) :
    ((∀ o ∈ orders, o.status = "PENDING") →
      ∀ o ∈ (check_pending_orders prices execOk orders).1, o.status = "PENDING") ∧
    (∀ o ∈ (check_pending_orders prices execOk orders).2, o.status = "EXECUTED") ∧
    (∀ o ∈ orders,
      (∃ r ∈ (check_pending_orders prices execOk orders).1, r.id = o.id) ∨
      (∃ e ∈ (check_pending_orders prices execOk orders).2,
        e.id = o.id ∧ execOk o.id = true)) ∧
    ((∀ o ∈ orders, ¬o.id = oid) →
      cancel_order oid orders = ⟨orders, [], false, "Order not found"⟩) ∧
    ((∃ o ∈ orders, o.id = oid) →
      (cancel_order oid orders).success = true ∧
      (cancel_order oid orders).message = "Order cancelled" ∧
      (∀ c ∈ (cancel_order oid orders).cancelled, c.status = "CANCELLED") ∧
      (∀ r ∈ (cancel_order oid orders).remaining, ¬r.id = oid)) := by
  refine ⟨check_rem_pending prices execOk orders, check_ex_executed prices execOk orders,
    check_covers prices execOk orders, ?_, ?_⟩
  · intro h
    have hnone : ¬(orders.any (fun o => o.id == oid) = true) := by
      simp only [List.any_eq_true, not_exists]
      intro o hc
      exact h o hc.1 (by simpa using hc.2)
    unfold cancel_order
    rw [if_neg hnone]
  · rintro ⟨o, ho, hid⟩
    have hany : orders.any (fun o => o.id == oid) = true :=
      List.any_eq_true.mpr ⟨o, ho, by simpa using hid⟩
    unfold cancel_order
    rw [if_pos hany]
    refine ⟨rfl, rfl, ?_, ?_⟩
    · intro c hc
      obtain ⟨b, _, rfl⟩ := List.mem_map.mp hc
      rfl
    · intro r hr
      have := List.of_mem_filter hr
      simpa using this

/-- A concrete pending limit order. -/
def order_ex : PendingOrder :=
  ⟨"ord-1", "user-1", "BTC-USD", "BUY", "LIMIT", 50, 100, 0, 0, 0, "PENDING", none⟩

/-- Witness for C8: with one pending order and no price available, the index
stays PENDING, and cancelling an unknown id fails with "Order not found"
leaving the state unchanged. -/
theorem c8_witness :
    (∀ o ∈ (check_pending_orders (fun _ => 0) (fun _ => true) [order_ex]).1,
      o.status = "PENDING") ∧
    cancel_order "missing" [order_ex] = ⟨[order_ex], [], false, "Order not found"⟩ :=
  ⟨(c8_order_lifecycle [order_ex] (fun _ => 0) (fun _ => true) "missing").1
      (by intro o ho; rw [List.mem_singleton] at ho; subst ho; rfl),
   (c8_order_lifecycle [order_ex] (fun _ => 0) (fun _ => true) "missing").2.2.2.1
      (by intro o ho; rw [List.mem_singleton] at ho; subst ho; simp [order_ex])⟩

end Bot
